import Mathlib

/-!
Shallow embedding of the HF2 host-side protocol engine (`src/main.rs` of
`jaredwolff/hf2-rs`). Byte buffers are `List Nat` (each element a byte
value 0–255); fallible decoders return an explicit outcome type that
distinguishes a returned error (`Err` in Rust) from a panic
(`.unwrap()` on an `Err`, which aborts the process).
-/

namespace HF2

/-- The crate's `Error` enum (src/main.rs lines 368-375). -/
inductive Error where
  | Parse
  | MalformedRequest
  | Execution
  | Sequence
  | Transmission
  deriving DecidableEq, Repr

/-- Result of running a fallible operation: a returned value, a returned
error value, or a process abort caused by `.unwrap()` on an `Err`. -/
inductive Outcome (α : Type) where
  | ok : α → Outcome α
  | err : Error → Outcome α
  | panic : Outcome α
  deriving DecidableEq, Repr

/-- Result of a `scroll`-style decoder (`TryFromCtx`): `ok`, a returned
`scroll::Error`, or a panic from `.unwrap()` inside the decoder. -/
inductive ScrollOutcome (α : Type) where
  | ok : α → ScrollOutcome α
  | err : ScrollOutcome α
  | panic : ScrollOutcome α
  deriving DecidableEq, Repr

/-- `CommandResponseStatus` (src/main.rs lines 233-241). -/
inductive CommandResponseStatus where
  | Success
  | ParseError
  | ExecutionError
  deriving DecidableEq, Repr

/-- `CommandResponseStatus::try_from` (src/main.rs lines 243-254);
`none` stands for `Err(Error::Parse)`. -/
def CommandResponseStatus.tryFrom (val : Nat) : Option CommandResponseStatus :=
  if val = 0 then some .Success
  else if val = 1 then some .ParseError
  else if val = 2 then some .ExecutionError
  else none

/-- `PacketType` (src/main.rs lines 256-266). -/
inductive PacketType where
  | Inner
  | Final
  | StdOut
  | Stderr
  deriving DecidableEq, Repr

/-- `PacketType::try_from` (src/main.rs lines 268-280);
`none` stands for `Err(Error::Parse)`. -/
def PacketType.tryFrom (val : Nat) : Option PacketType :=
  if val = 0 then some .Inner
  else if val = 1 then some .Final
  else if val = 2 then some .StdOut
  else if val = 3 then some .Stderr
  else none

/-- `BinInfoMode` (src/main.rs lines 30-36). -/
inductive BinInfoMode where
  | Bootloader
  | User
  deriving DecidableEq, Repr

/-- `BinInfoMode::try_from` (src/main.rs lines 38-48);
`none` stands for `Err(Error::Parse)`. -/
def BinInfoMode.tryFrom (value : Nat) : Option BinInfoMode :=
  if value = 1 then some .Bootloader
  else if value = 2 then some .User
  else none

/-- Little-endian `u16` read of two bytes at index `i`, as done by
`gread_with::<u16>` with `LE`. -/
def le16 (buf : List Nat) (i : Nat) : Nat :=
  buf.getD i 0 + 256 * buf.getD (i + 1) 0

/-- Little-endian `u32` read of four bytes at index `i`, as done by
`gread_with::<u32>` with `LE`. -/
def le32 (buf : List Nat) (i : Nat) : Nat :=
  buf.getD i 0 + 256 * buf.getD (i + 1) 0 + 65536 * buf.getD (i + 2) 0
    + 16777216 * buf.getD (i + 3) 0

/-- `CommandResponse` (src/main.rs lines 200-209). -/
structure CommandResponse where
  tag : Nat
  status : CommandResponseStatus
  status_info : Nat
  deriving DecidableEq, Repr

/-- `CommandResponse`'s `TryFromCtx` impl (src/main.rs lines 284-315):
rejects buffers shorter than 8 bytes, then reads a little-endian `u16`
tag at 0, a status byte at 2 (`CommandResponseStatus::try_from(..).unwrap()`,
which panics on an unknown status), and a status_info byte at 3,
returning the response together with the final read offset. -/
def CommandResponse.tryFromCtx (this : List Nat) :
    ScrollOutcome (CommandResponse × Nat) :=
  if this.length < 8 then .err
  else
    match CommandResponseStatus.tryFrom (this.getD 2 0) with
    | none => .panic
    | some status => .ok (⟨le16 this 0, status, this.getD 3 0⟩, 4)

/-- `BinInfoResult` (src/main.rs lines 72-79). -/
structure BinInfoResult where
  mode : BinInfoMode
  flash_page_size : Nat
  flash_num_pages : Nat
  max_message_size : Nat
  family_id : Option Nat
  deriving DecidableEq, Repr

/-- `BinInfoResult`'s `TryFromCtx` impl (src/main.rs lines 83-117):
rejects buffers shorter than 16 bytes, reads four little-endian `u32`
fields (the mode conversion is `.unwrap()`ed, panicking on a value other
than 1 or 2), then reads an optional trailing `u32` family id when the
offset 16 is still short of the buffer length (that trailing `gread`
returns an error when fewer than 4 bytes remain). -/
def BinInfoResult.tryFromCtx (this : List Nat) :
    ScrollOutcome (BinInfoResult × Nat) :=
  if this.length < 16 then .err
  else
    match BinInfoMode.tryFrom (le32 this 0) with
    | none => .panic
    | some mode =>
      if 16 < this.length then
        if this.length < 20 then .err
        else .ok (⟨mode, le32 this 4, le32 this 8, le32 this 12,
          some (le32 this 16)⟩, 20)
      else .ok (⟨mode, le32 this 4, le32 this 8, le32 this 12, none⟩, 16)

/-- Continuation byte of a UTF-8 sequence: `0x80–0xBF`. -/
def utf8Cont (b : Nat) : Bool :=
  decide (128 ≤ b) && decide (b ≤ 191)

/-- UTF-8 validity of a byte sequence, as checked by
`std::str::from_utf8` (the standard UTF-8 well-formedness table). -/
def utf8Valid : List Nat → Bool
  | [] => true
  | b :: rest =>
    if b ≤ 127 then utf8Valid rest
    else if 194 ≤ b ∧ b ≤ 223 then
      match rest with
      | b1 :: rest2 => if utf8Cont b1 then utf8Valid rest2 else false
      | [] => false
    else if 224 ≤ b ∧ b ≤ 239 then
      match rest with
      | b1 :: b2 :: rest3 =>
        if (if b = 224 then decide (160 ≤ b1) && decide (b1 ≤ 191)
            else if b = 237 then decide (128 ≤ b1) && decide (b1 ≤ 159)
            else utf8Cont b1) && utf8Cont b2
        then utf8Valid rest3 else false
      | _ => false
    else if 240 ≤ b ∧ b ≤ 244 then
      match rest with
      | b1 :: b2 :: b3 :: rest4 =>
        if (if b = 240 then decide (144 ≤ b1) && decide (b1 ≤ 191)
            else if b = 244 then decide (128 ≤ b1) && decide (b1 ≤ 143)
            else utf8Cont b1) && utf8Cont b2 && utf8Cont b3
        then utf8Valid rest4 else false
      | _ => false
    else false

/-- `InfoResult` (src/main.rs lines 132-135); the `String` is kept as
its UTF-8 byte sequence. -/
structure InfoResult where
  info : List Nat
  deriving DecidableEq, Repr

/-- `InfoResult`'s `TryFromCtx` impl (src/main.rs lines 138-150): copies
all `this.len()` bytes, then `std::str::from_utf8(..).unwrap()`, which
panics on invalid UTF-8; on valid UTF-8 it succeeds with the text and
the offset `this.len()`. -/
def InfoResult.tryFromCtx (this : List Nat) : ScrollOutcome (InfoResult × Nat) :=
  if utf8Valid this then .ok (⟨this⟩, this.length) else .panic

/-- Frame-header encoding as on src/main.rs line 332:
`(packet_type as u8) << 6 | payload_length`. -/
def encodeHeader (ptype len : Nat) : Nat :=
  (ptype <<< 6) ||| len

/-- Frame-header decoding as on src/main.rs lines 344-345:
type is `header >> 6`, payload length is `header & 0x3F`. -/
def decodeHeader (b : Nat) : Nat × Nat :=
  (b >>> 6, b &&& 63)

/-- `Command`'s `TryIntoCtx` impl (src/main.rs lines 211-231): writes the
command id as a little-endian `u32`, the tag as a little-endian `u16`,
and the two reserved zero bytes — 8 bytes in all. -/
def Command.encode (command_id tag : Nat) : List Nat :=
  [command_id % 256, command_id / 256 % 256,
   command_id / 65536 % 256, command_id / 16777216 % 256,
   tag % 256, tag / 256 % 256, 0, 0]

/-- `let mut seq: u16 = 1;` (src/main.rs line 318): the tag used by
`something` — a local variable freshly initialised to 1 on every call. -/
def somethingSeq : Nat := 1

/-- The 64-byte frame `something` writes (src/main.rs lines 329-334):
a zeroed buffer, the 8-byte command written at offset 1, and the header
byte `(PacketType::Final as u8) << 6 | 8` at offset 0. -/
def somethingWriteBuffer (id : Nat) : List Nat :=
  encodeHeader 1 8 :: Command.encode id somethingSeq ++ List.replicate 55 0

/-- The tag field of an outgoing frame: the little-endian `u16` at
offset 1 + 4 of the frame, where `Command`'s encoder put it. -/
def sentTag (frame : List Nat) : Nat :=
  le16 frame 5

/-- The response read loop of `something` (src/main.rs lines 336-349),
with the device's successive 64-byte reads given as a list of frames:
reads a frame, takes `ptype = PacketType::try_from(buffer[0] >> 6).unwrap()`
and `len = buffer[0] & 0x3F`, appends `buffer[1..=len]`, and keeps
reading while `ptype == Inner`; a read with no frame left is a transport
failure (`Error::Transmission`). -/
def reassemble : List (List Nat) → Outcome (List Nat)
  | [] => .err .Transmission
  | f :: rest =>
    match PacketType.tryFrom (f.getD 0 0 >>> 6) with
    | none => .panic
    | some ptype =>
      let len := f.getD 0 0 &&& 63
      let chunk := (f.drop 1).take len
      if ptype = .Inner then
        match reassemble rest with
        | .ok tail => .ok (chunk ++ tail)
        | other => other
      else .ok chunk

/-- `something` (src/main.rs lines 317-366), with the transport's reads
given as `frames`: reassembles the response, decodes the
`CommandResponse` header (a scroll error becomes `Error::Parse` via the
`From` impl), fails with `MalformedRequest` when the status is not
`Success`, then with `Sequence` when the tag differs from the sent
`seq`, and otherwise returns `bitsnbytes[offset..]`. -/
def something (_id : Nat) (frames : List (List Nat)) : Outcome (List Nat) :=
  match reassemble frames with
  | .err e => .err e
  | .panic => .panic
  | .ok bitsnbytes =>
    match CommandResponse.tryFromCtx bitsnbytes with
    | .err => .err .Parse
    | .panic => .panic
    | .ok (resp, offset) =>
      if resp.status ≠ .Success then .err .MalformedRequest
      else if resp.tag ≠ somethingSeq then .err .Sequence
      else .ok (bitsnbytes.drop offset)

/-- Zero-padding of a frame to exactly 64 bytes before transmission. -/
def pad64 (l : List Nat) : List Nat :=
  l ++ List.replicate (64 - l.length) 0

/-- Modelled from the spec: the general fragmenter of §4.1, absent from
src (the code only ever emits the single `Final` frame for the 8-byte
command header, and the `packetize` test is `unimplemented!`): split the
payload into chunks of at most 63 bytes, tag every chunk but the last
`Inner` and the last (even if empty) `Final`, prefix each chunk with the
header byte `(type << 6) | payload_length`, and zero-pad each frame to
64 bytes. -/
def fragment (p : List Nat) : List (List Nat) :=
  if _h : p.length ≤ 63 then
    [pad64 (encodeHeader 1 p.length :: p)]
  else
    pad64 (encodeHeader 0 63 :: p.take 63) :: fragment (p.drop 63)
termination_by p.length
decreasing_by
  simp only [List.length_drop]
  omega

/-! ## Helper lemmas -/

set_option maxRecDepth 4096 in
theorem header_roundtrip_fin :
    ∀ (t : Fin 4) (l : Fin 64),
      decodeHeader (encodeHeader t.val l.val) = (t.val, l.val) := by
  decide

theorem encodeHeader_shift (t l : Nat) (ht : t < 4) (hl : l < 64) :
    encodeHeader t l >>> 6 = t :=
  congrArg Prod.fst (header_roundtrip_fin ⟨t, ht⟩ ⟨l, hl⟩)

theorem encodeHeader_mask (t l : Nat) (ht : t < 4) (hl : l < 64) :
    encodeHeader t l &&& 63 = l :=
  congrArg Prod.snd (header_roundtrip_fin ⟨t, ht⟩ ⟨l, hl⟩)

theorem take_length_append_self {α : Type} (l₁ l₂ : List α) :
    (l₁ ++ l₂).take l₁.length = l₁ := by
  induction l₁ with
  | nil => simp
  | cons a t ih => simp [ih]

theorem pad64_cons (a : Nat) (l : List Nat) :
    pad64 (a :: l) = a :: (l ++ List.replicate (63 - l.length) 0) := by
  have h : 64 - (a :: l).length = 63 - l.length := by
    rw [List.length_cons]
    omega
  rw [pad64, h, List.cons_append]

/-! ## Claim theorems -/

/-- C4: for all packet types `t ∈ {0,1,2,3}` and lengths `l ∈ [0,63]`,
encoding the frame header byte as `(t << 6) | l` and decoding it as
`(header >> 6, header & 0x3F)` yields back exactly `(t, l)`. -/
theorem header_roundtrip (t l : Nat) (ht : t < 4) (hl : l < 64) :
    decodeHeader (encodeHeader t l) = (t, l) :=
  header_roundtrip_fin ⟨t, ht⟩ ⟨l, hl⟩

theorem header_roundtrip_witness :
    decodeHeader (encodeHeader 2 63) = (2, 63) :=
  header_roundtrip 2 63 (by decide) (by decide)

set_option maxRecDepth 4096 in
/-- C10: for every frame header byte `b < 256`, the extracted packet type
`b >> 6` converts to a valid `PacketType` (so the `.unwrap()` on
src/main.rs line 344 cannot panic), and the extracted length `b & 0x3F`
is at most 63, so the payload slice `frame[1 .. 1+len]` stays within the
64-byte frame. -/
theorem packetType_total_on_frame_headers :
    ∀ b : Fin 256,
      (PacketType.tryFrom (b.val >>> 6)).isSome = true ∧
      b.val &&& 63 ≤ 63 ∧ 1 + (b.val &&& 63) ≤ 64 := by
  decide

/-- C2 (code bug): a response buffer whose status byte is 3 — not one of
0, 1, 2 — makes `CommandResponse`'s decoder panic through
`CommandResponseStatus::try_from(status).unwrap()` (src/main.rs line
296) instead of returning an error to the caller. -/
theorem commandResponse_unknown_status_panics :
    CommandResponse.tryFromCtx [0, 0, 3, 0, 0, 0, 0, 0] = .panic := by
  decide

/-- C8 (code bug): a non-UTF-8 buffer makes `InfoResult`'s decoder panic
through `std::str::from_utf8(&bytes).unwrap()` (src/main.rs line 146)
instead of returning an encoding error to the caller. -/
theorem info_invalid_utf8_panics :
    InfoResult.tryFromCtx [255] = .panic := by
  decide

/-- C1 counterexample: an 8-byte response buffer decodes successfully,
but the offset returned — where the command-specific payload begins —
is 4, not 8. -/
theorem commandResponse_offset_not_eight :
    CommandResponse.tryFromCtx [1, 0, 0, 0, 0, 0, 0, 0]
      = .ok (⟨1, .Success, 0⟩, 4) ∧ (4 : Nat) ≠ 8 := by
  decide

/-- C1 (amended): the decoder rejects buffers shorter than 8 bytes, and
on any buffer of at least 8 bytes whose status byte is recognized it
succeeds reading only 4 header bytes (little-endian tag at 0–1, status
at 2, status_info at 3) and returns payload offset 4 — the offset at
which `something` slices `bitsnbytes[offset..]` for the result
decoder — not 8. -/
theorem commandResponse_header_decode :
    (∀ buf : List Nat, buf.length < 8 →
      CommandResponse.tryFromCtx buf = .err) ∧
    (∀ buf : List Nat, 8 ≤ buf.length →
      ∀ s, CommandResponseStatus.tryFrom (buf.getD 2 0) = some s →
        CommandResponse.tryFromCtx buf
          = .ok (⟨le16 buf 0, s, buf.getD 3 0⟩, 4)) := by
  constructor
  · intro buf h
    simp [CommandResponse.tryFromCtx, h]
  · intro buf h s hs
    rw [CommandResponse.tryFromCtx, if_neg (Nat.not_lt.mpr h), hs]

theorem commandResponse_header_decode_witness :
    CommandResponse.tryFromCtx [7] = .err ∧
    CommandResponse.tryFromCtx [5, 1, 2, 9, 0, 0, 0, 0]
      = .ok (⟨261, .ExecutionError, 9⟩, 4) :=
  ⟨commandResponse_header_decode.1 [7] (by decide),
   commandResponse_header_decode.2 [5, 1, 2, 9, 0, 0, 0, 0] (by decide)
     .ExecutionError (by decide)⟩

/-- C6 counterexample: a 16-byte all-zero buffer does not make BinInfo
decoding succeed with `family_id = none`; its mode field is 0, so the
`.unwrap()` on src/main.rs line 94 panics. -/
theorem binInfo_sixteen_zero_panics :
    BinInfoResult.tryFromCtx (List.replicate 16 0) = .panic := by
  decide

/-- C6 (amended): BinInfo decoding rejects buffers shorter than 16 bytes
with the truncation error; on a 16-byte buffer whose mode field decodes
to a valid `BinInfoMode` (1 or 2) it succeeds with `family_id = none`;
on a 20-byte buffer with valid mode it succeeds with `family_id = some`
of the little-endian u32 at bytes 16..20 (a buffer whose mode field is
any other value panics instead of erroring). -/
theorem binInfo_decode_lengths :
    (∀ buf : List Nat, buf.length < 16 →
      BinInfoResult.tryFromCtx buf = .err) ∧
    (∀ buf : List Nat, buf.length = 16 →
      ∀ m, BinInfoMode.tryFrom (le32 buf 0) = some m →
        BinInfoResult.tryFromCtx buf
          = .ok (⟨m, le32 buf 4, le32 buf 8, le32 buf 12, none⟩, 16)) ∧
    (∀ buf : List Nat, buf.length = 20 →
      ∀ m, BinInfoMode.tryFrom (le32 buf 0) = some m →
        BinInfoResult.tryFromCtx buf
          = .ok (⟨m, le32 buf 4, le32 buf 8, le32 buf 12,
              some (le32 buf 16)⟩, 20)) := by
  refine ⟨?_, ?_, ?_⟩
  · intro buf h
    simp [BinInfoResult.tryFromCtx, h]
  · intro buf h m hm
    rw [BinInfoResult.tryFromCtx, h, hm]
    rfl
  · intro buf h m hm
    rw [BinInfoResult.tryFromCtx, h, hm]
    rfl

theorem binInfo_decode_lengths_witness :
    BinInfoResult.tryFromCtx (List.replicate 15 0) = .err ∧
    BinInfoResult.tryFromCtx
        [2, 0, 0, 0, 1, 1, 0, 0, 64, 0, 0, 0, 0, 2, 0, 0]
      = .ok (⟨.User, 257, 64, 512, none⟩, 16) ∧
    BinInfoResult.tryFromCtx
        [2, 0, 0, 0, 1, 1, 0, 0, 64, 0, 0, 0, 0, 2, 0, 0, 239, 190, 173, 222]
      = .ok (⟨.User, 257, 64, 512, some 3735928559⟩, 20) :=
  ⟨binInfo_decode_lengths.1 (List.replicate 15 0) (by decide),
   binInfo_decode_lengths.2.1
     [2, 0, 0, 0, 1, 1, 0, 0, 64, 0, 0, 0, 0, 2, 0, 0]
     (by decide) .User (by decide),
   binInfo_decode_lengths.2.2
     [2, 0, 0, 0, 1, 1, 0, 0, 64, 0, 0, 0, 0, 2, 0, 0, 239, 190, 173, 222]
     (by decide) .User (by decide)⟩

/-- C5: whenever the reassembled response decodes with status `Success`
but carries a tag different from the sent tag (`seq = 1`), `something`
fails with `Error::Sequence` and returns no payload bytes. -/
theorem something_tag_mismatch_sequence (id : Nat)
    (frames : List (List Nat)) (buf : List Nat)
    (hre : reassemble frames = .ok buf)
    (hlen : 8 ≤ buf.length)
    (hstatus : buf.getD 2 0 = 0)
    (htag : le16 buf 0 ≠ somethingSeq) :
    something id frames = .err .Sequence := by
  have hs : CommandResponseStatus.tryFrom (buf.getD 2 0) = some .Success := by
    rw [hstatus]
    rfl
  have hdec : CommandResponse.tryFromCtx buf
      = .ok (⟨le16 buf 0, .Success, buf.getD 3 0⟩, 4) := by
    rw [CommandResponse.tryFromCtx, if_neg (Nat.not_lt.mpr hlen), hs]
  simp [something, hre, hdec, htag]

theorem something_tag_mismatch_sequence_witness :
    something 1 [[72, 2, 0, 0, 0, 0, 0, 0, 0]] = .err .Sequence :=
  something_tag_mismatch_sequence 1 [[72, 2, 0, 0, 0, 0, 0, 0, 0]]
    [2, 0, 0, 0, 0, 0, 0, 0] (by decide) (by decide) (by decide) (by decide)

/-- C7 counterexample: a StdOut frame (header byte 131 = type 2,
length 3) read first during reassembly does not cause a framing error —
reassembly returns its three payload bytes as the response. -/
theorem reassemble_stdout_not_error :
    reassemble [[131, 170, 187, 204]] = .ok [170, 187, 204] := by
  decide

/-- C7 (amended): a frame whose packet type is StdOut or Stderr
terminates the reassembly loop exactly like a Final frame: its payload
is appended to the reassembled buffer and returned, and no framing
error is raised. -/
theorem reassemble_side_channel_terminates (f : List Nat)
    (frames : List (List Nat))
    (h : f.getD 0 0 >>> 6 = 2 ∨ f.getD 0 0 >>> 6 = 3) :
    reassemble (f :: frames) = .ok ((f.drop 1).take (f.getD 0 0 &&& 63)) := by
  have h' : PacketType.tryFrom (f.getD 0 0 >>> 6) = some .StdOut ∨
      PacketType.tryFrom (f.getD 0 0 >>> 6) = some .Stderr := by
    rcases h with h | h
    · left
      rw [h]
      rfl
    · right
      rw [h]
      rfl
  rw [reassemble]
  rcases h' with h' | h' <;> rw [h'] <;> rfl

theorem reassemble_side_channel_terminates_witness :
    reassemble [[194, 9, 8]] = .ok [9, 8] :=
  reassemble_side_channel_terminates [194, 9, 8] [] (Or.inr (by decide))

/-- C9 counterexample: the two consecutive exchanges `main` performs
(`BinInfo`, id 1, then `Info`, id 2) send the same correlation tag, not
different ones — `seq` is a local variable initialised to 1 on every
call to `something`. -/
theorem consecutive_exchanges_same_tag :
    sentTag (somethingWriteBuffer 1) = sentTag (somethingWriteBuffer 2) := by
  decide

/-- C9 (amended): the tag sent with every command exchange is the fixed
value `seq = 1`; no counter survives across calls, so consecutive
exchanges reuse the same tag. -/
theorem sent_tag_always_one :
    ∀ id : Nat, sentTag (somethingWriteBuffer id) = somethingSeq ∧
      somethingSeq = 1 := by
  intro id
  constructor
  · rfl
  · rfl

theorem reassemble_final_frame (chunk : List Nat) (h : chunk.length ≤ 63) :
    reassemble [pad64 (encodeHeader 1 chunk.length :: chunk)] = .ok chunk := by
  have hshift : encodeHeader 1 chunk.length >>> 6 = 1 :=
    encodeHeader_shift 1 chunk.length (by omega) (by omega)
  have hmask : encodeHeader 1 chunk.length &&& 63 = chunk.length :=
    encodeHeader_mask 1 chunk.length (by omega) (by omega)
  rw [pad64_cons, reassemble, List.getD_cons_zero, hshift, hmask]
  have hFinal : PacketType.tryFrom 1 = some .Final := rfl
  rw [hFinal]
  simp only [List.drop_succ_cons, List.drop_zero]
  rw [take_length_append_self]
  rfl

theorem reassemble_inner_frame (chunk : List Nat) (rest : List (List Nat))
    (h : chunk.length = 63) :
    reassemble (pad64 (encodeHeader 0 63 :: chunk) :: rest)
      = match reassemble rest with
        | .ok tail => .ok (chunk ++ tail)
        | other => other := by
  have hshift : encodeHeader 0 63 >>> 6 = 0 :=
    encodeHeader_shift 0 63 (by omega) (by omega)
  have hmask : encodeHeader 0 63 &&& 63 = 63 :=
    encodeHeader_mask 0 63 (by omega) (by omega)
  rw [pad64_cons, reassemble, List.getD_cons_zero, hshift, hmask]
  have hInner : PacketType.tryFrom 0 = some .Inner := rfl
  rw [hInner]
  simp only [List.drop_succ_cons, List.drop_zero]
  rw [← h, take_length_append_self]
  simp

theorem reassemble_fragment_all (p : List Nat) :
    reassemble (fragment p) = .ok p := by
  rw [fragment]
  by_cases h : p.length ≤ 63
  · rw [dif_pos h]
    exact reassemble_final_frame p h
  · rw [dif_neg h]
    have ih := reassemble_fragment_all (p.drop 63)
    have hlen : (p.take 63).length = 63 := by
      rw [List.length_take]
      omega
    rw [reassemble_inner_frame (p.take 63) (fragment (p.drop 63)) hlen, ih]
    show Outcome.ok (p.take 63 ++ p.drop 63) = Outcome.ok p
    rw [List.take_append_drop]
termination_by p.length
decreasing_by
  simp only [List.length_drop]
  omega

/-- C3: for any command payload of length at most 63×3 bytes (covering
k = 1, 2, 3 frames), reassembling the frame sequence produced by
fragmenting that payload reproduces the original payload bit-for-bit. -/
theorem reassemble_fragment_roundtrip (p : List Nat)
    (_h : p.length ≤ 189) :
    reassemble (fragment p) = .ok p :=
  reassemble_fragment_all p

theorem reassemble_fragment_roundtrip_witness :
    reassemble (fragment (List.replicate 100 7)) = .ok (List.replicate 100 7) :=
  reassemble_fragment_roundtrip (List.replicate 100 7) (by decide)

end HF2
